/-
Verification of the device-data normalization and auto-discovery layer of the
hacs-ducobox-connector integration.

The Python modules are shallowly embedded:
  * JSON documents (the device document delivered by the REST client) become
    the inductive type `JVal`; Python dicts become association lists of
    `String × JVal` pairs (Python dicts never hold duplicate keys, so
    well-formedness hypotheses `nodupKeysB` appear where a theorem needs it).
  * Python `None` and JSON `null` are both `JVal.null`, exactly as in Python,
    where a stored JSON null and the absence marker are the same object.
  * Numbers are rationals: the source manipulates ints and floats only through
    exact decimal arithmetic (divide by 10, multiply by 0.1, round), which the
    rationals represent exactly.
  * Fallible code (Python code that can raise) returns `Option`; `none`
    models a raised exception.
Definitions keep the names of the Python functions they embed.  Functions of
`model/utils.py` are not part of the source tree (only `tests/test_utils.py`
is); they are modelled from the specification and marked as such.
-/
import Mathlib

namespace Ducobox

/-- A JSON-ish value: the shape of the device document.  Python `None` and
JSON `null` are both `JVal.null`.  Numbers are exact rationals. -/
inductive JVal where
  | null : JVal
  | bool : Bool → JVal
  | num : ℚ → JVal
  | str : String → JVal
  | obj : List (String × JVal) → JVal
  | arr : List JVal → JVal

/-- Lookup in an association list (a Python dict): first binding wins.
Python dicts never hold a key twice, so on well-formed input the first
binding is the only one. -/
def alist_get {α : Type} (fields : List (String × α)) (k : String) : Option α :=
  match fields with
  | [] => none
  | (k', v) :: rest => if k' = k then some v else alist_get rest k

/-- `(fields.map Prod.fst).Nodup` as a Bool: the Python-dict invariant that
keys are not repeated. -/
def nodupKeysB {α : Type} (fields : List (String × α)) : Bool :=
  decide (fields.map Prod.fst).Nodup

/-- Modelled from the spec: `model/utils.py` is absent from the source tree.
§4.1 — `safe_get(document, *path)` walks `path` through nested mappings and
returns `None` if any intermediate value is absent or not a mapping, or if
the full path is not found; the empty path returns the document itself.
As in Python, the `None` result is the same value as a stored JSON null. -/
def safe_get : JVal → List String → JVal
  | d, [] => d
  | JVal.obj fields, k :: rest =>
      match alist_get fields k with
      | some v => safe_get v rest
      | none => JVal.null
  | _, _ :: _ => JVal.null

/-- Modelled from the spec: `model/utils.py` is absent from the source tree.
§4.1 — `extract_val(x)` returns `x['Val']` when `x` is a mapping containing
the key `Val` (including a stored null), and `x` unchanged otherwise. -/
def extract_val (x : JVal) : JVal :=
  match x with
  | JVal.obj fields =>
      match alist_get fields "Val" with
      | some v => v
      | none => x
  | _ => x

/-- Python truthiness for the values the document can hold: `None`, `False`,
zero, the empty string and the empty containers are falsy. -/
def pyTruthy : JVal → Bool
  | JVal.null => false
  | JVal.bool b => b
  | JVal.num q => q != 0
  | JVal.str s => s ≠ ""
  | JVal.obj fields => !fields.isEmpty
  | JVal.arr elems => !elems.isEmpty

/-- Python `==` on the scalar values the embedded code compares (`Min`,
`Max`, `Val` leaves and the MAC string): numbers compare numerically and
booleans compare as the numbers 0/1, exactly as in Python.  Comparisons of
containers are not reached by the embedded code paths and are modelled as
`false`. -/
def pyEq : JVal → JVal → Bool
  | JVal.null, JVal.null => true
  | JVal.bool a, JVal.bool b => a == b
  | JVal.bool a, JVal.num q => (if a then (1 : ℚ) else 0) == q
  | JVal.num q, JVal.bool b => q == (if b then (1 : ℚ) else 0)
  | JVal.num a, JVal.num b => a == b
  | JVal.str a, JVal.str b => a == b
  | _, _ => false

/-- Python subscript `v[k]` on a leaf mapping.  The embedded code only
subscripts after a membership guard, so the missing-key case (a Python
`KeyError`) is never reached; it is mapped to null. -/
def pyItem (v : JVal) (k : String) : JVal :=
  match v with
  | JVal.obj fields => (alist_get fields k).getD JVal.null
  | _ => JVal.null

/-- Accumulate decimal digits; fails on the first non-digit character. -/
def parseNatAux : List Char → ℕ → Option ℕ
  | [], acc => some acc
  | c :: rest, acc =>
      if c.isDigit then parseNatAux rest (acc * 10 + (c.toNat - 48)) else none

/-- A non-empty all-digit character run as a natural number. -/
def parseNatChars (cs : List Char) : Option ℕ :=
  if cs.isEmpty then none else parseNatAux cs 0

/-- Digit run to a natural number, defined for runs already checked. -/
def natOfDigits (cs : List Char) : ℕ :=
  cs.foldl (fun a c => a * 10 + (c.toNat - 48)) 0

/-- An unsigned decimal literal (`"167"`, `"50.7"`, `"5."`, `".5"`), the
forms Python `float()` accepts that the device API produces.  Exponent
forms and surrounding whitespace are not modelled. -/
def parseUnsigned (cs : List Char) : Option ℚ :=
  let ip := cs.takeWhile (fun c => c ≠ '.')
  let rest := cs.dropWhile (fun c => c ≠ '.')
  match rest with
  | [] => (parseNatChars ip).map (fun n => (n : ℚ))
  | _ :: fp =>
      if ip.isEmpty && fp.isEmpty then none
      else if !ip.all Char.isDigit || !fp.all Char.isDigit then none
      else some ((natOfDigits ip : ℚ) + (natOfDigits fp : ℚ) / ((10 : ℚ) ^ fp.length))

/-- A signed decimal literal, as read by Python `float()`. -/
def parseDecimal (s : String) : Option ℚ :=
  match s.data with
  | '-' :: rest => (parseUnsigned rest).map Neg.neg
  | '+' :: rest => parseUnsigned rest
  | cs => parseUnsigned cs

/-- Python numeric coercion without string parsing: `value / 10` works on
ints, floats and bools (True is 1) and raises on anything else. -/
def pyNum : JVal → Option ℚ
  | JVal.num q => some q
  | JVal.bool b => some (if b then 1 else 0)
  | _ => none

/-- Python `float(value)`: numbers and bools directly, strings through a
decimal parse; anything else raises. -/
def pyFloat : JVal → Option ℚ
  | JVal.num q => some q
  | JVal.bool b => some (if b then 1 else 0)
  | JVal.str s => parseDecimal s
  | _ => none

/-- Truncation toward zero, the semantics of Python `int()` on a float. -/
def ratTrunc (q : ℚ) : ℤ :=
  if 0 ≤ q then ⌊q⌋ else -⌊-q⌋

/-- Python `int(value)`: floats truncate toward zero, bools are 0/1 and
strings must be integer literals; anything else raises. -/
def pyInt : JVal → Option ℤ
  | JVal.num q => some (ratTrunc q)
  | JVal.bool b => some (if b then 1 else 0)
  | JVal.str s =>
      match s.data with
      | '-' :: rest => (parseNatChars rest).map (fun n => -(n : ℤ))
      | '+' :: rest => (parseNatChars rest).map (fun n => (n : ℤ))
      | cs => (parseNatChars cs).map (fun n => (n : ℤ))
  | _ => none

/-- Python `round()` on a rational: nearest integer, ties to even. -/
def pyRound (q : ℚ) : ℤ :=
  let f := ⌊q⌋
  let r := q - f
  if r < 1 / 2 then f
  else if 1 / 2 < r then f + 1
  else if f % 2 = 0 then f else f + 1

/-- Modelled from the spec: `model/utils.py` is absent from the source tree.
§4.2 — temperature converter: `None` propagates, otherwise raw ÷ 10 (no
string coercion for this quantity; a non-numeric raw value raises). -/
def process_temperature : JVal → Option JVal
  | JVal.null => some JVal.null
  | v => (pyNum v).map (fun q => JVal.num (q / 10))

/-- Modelled from the spec: `model/utils.py` is absent from the source tree.
§4.2 — pressure converter: `None` propagates, otherwise float-coerce
(string-encoded numbers accepted) and multiply by 0.1. -/
def process_pressure : JVal → Option JVal
  | JVal.null => some JVal.null
  | v => (pyFloat v).map (fun q => JVal.num (q * (1 / 10)))

/-- Modelled from the spec: `model/utils.py` is absent from the source tree.
§4.2 — bypass-position converter: `None` propagates, otherwise float-coerce
(string-encoded numbers accepted) and round to the nearest integer with
Python `round()` semantics. -/
def process_bypass_position : JVal → Option JVal
  | JVal.null => some JVal.null
  | v => (pyFloat v).map (fun q => JVal.num ((pyRound q : ℤ) : ℚ))

/-- Modelled from the spec: `model/utils.py` is absent from the source tree.
§4.2 — the remaining converters are identity pass-throughs reserved as
extension points; `None` propagates and nothing raises. -/
def passthrough (v : JVal) : Option JVal := some v

/-- Modelled from the spec (see `passthrough`): speed converter. -/
def process_speed : JVal → Option JVal := passthrough

/-- Modelled from the spec (see `passthrough`): RSSI converter. -/
def process_rssi : JVal → Option JVal := passthrough

/-- Modelled from the spec (see `passthrough`): uptime converter. -/
def process_uptime : JVal → Option JVal := passthrough

/-- Modelled from the spec (see `passthrough`): filter-time converter. -/
def process_timefilterremain : JVal → Option JVal := passthrough

/-- Modelled from the spec (see `passthrough`): node temperature. -/
def process_node_temperature : JVal → Option JVal := passthrough

/-- Modelled from the spec (see `passthrough`): node humidity. -/
def process_node_humidity : JVal → Option JVal := passthrough

/-- Modelled from the spec (see `passthrough`): node CO2. -/
def process_node_co2 : JVal → Option JVal := passthrough

/-- Modelled from the spec (see `passthrough`): node air-quality index. -/
def process_node_iaq : JVal → Option JVal := passthrough

/-- ASCII lowercase letter, the character class `[a-z]` of the source. -/
def isLowerAlpha (c : Char) : Bool := 'a' ≤ c && c ≤ 'z'

/-- ASCII uppercase letter, the character class `[A-Z]` of the source. -/
def isUpperAlpha (c : Char) : Bool := 'A' ≤ c && c ≤ 'Z'

/-- First substitution of `_humanize_key` (devices.py lines 677 and
number.py line 40): the pattern `([a-z])([A-Z])` replaced by the two
groups separated by a space.  The two-character matches cannot overlap
(a character cannot be both lowercase and uppercase), so the regex pass
is exactly the insertion of a space at every lower-upper boundary. -/
def humanizePassOne : List Char → List Char
  | c1 :: c2 :: rest =>
      if isLowerAlpha c1 && isUpperAlpha c2 then
        c1 :: ' ' :: humanizePassOne (c2 :: rest)
      else
        c1 :: humanizePassOne (c2 :: rest)
  | l => l

/-- Second substitution of `_humanize_key` (devices.py line 679 and
number.py line 41): the pattern `([A-Z]+)([A-Z][a-z])` replaced by the two
groups separated by a space.  Because a match always ends in a lowercase
character, the character preceding an upper-lower pair is never consumed
by an earlier match when it is uppercase, so the regex pass is exactly the
insertion of a space before every uppercase-lowercase pair that directly
follows another uppercase letter. -/
def humanizePassTwo : List Char → List Char
  | c1 :: c2 :: c3 :: rest =>
      if isUpperAlpha c1 && isUpperAlpha c2 && isLowerAlpha c3 then
        c1 :: ' ' :: humanizePassTwo (c2 :: c3 :: rest)
      else
        c1 :: humanizePassTwo (c2 :: c3 :: rest)
  | l => l

/-- `_humanize_key` of `model/devices.py` (lines 670-680): CamelCase keys
to human-readable names via the two regex passes. -/
def _humanize_key (key : String) : String :=
  String.mk (humanizePassTwo (humanizePassOne key.data))

/-- `_humanize_config_key` of `number.py` (lines 38-42): the identical
pair of regex passes applied to config keys. -/
def _humanize_config_key (key : String) : String :=
  String.mk (humanizePassTwo (humanizePassOne key.data))

/-- `NodeSensorMeta` of `model/devices.py` (lines 538-547): metadata for a
known node sensor key.  The field defaults mirror the dataclass defaults:
no unit, no device class, statistics class "measurement", no converter,
no icon.  Units, device classes and state classes are the string values of
the Home Assistant constants the source names. -/
structure NodeSensorMeta where
  name : String
  native_unit_of_measurement : Option String := none
  device_class : Option String := none
  state_class : Option String := some "measurement"
  process_fn : Option (JVal → Option JVal) := none
  icon : Option String := none

/-- `NODE_SENSOR_REGISTRY` of `model/devices.py` (lines 553-667): the
static module → key → metadata table enriching discovery. -/
def NODE_SENSOR_REGISTRY : List (String × List (String × NodeSensorMeta)) :=
  [ ("Sensor",
      [ ("Temp",
          { name := "Temperature"
            native_unit_of_measurement := some "°C"
            device_class := some "temperature"
            process_fn := some process_node_temperature }),
        ("Rh",
          { name := "Relative Humidity"
            native_unit_of_measurement := some "%"
            device_class := some "humidity"
            process_fn := some process_node_humidity }),
        ("IaqRh",
          { name := "Humidity Air Quality"
            native_unit_of_measurement := some "%"
            process_fn := some process_node_iaq
            icon := some "mdi:air-filter" }),
        ("Co2",
          { name := "CO₂"
            native_unit_of_measurement := some "ppm"
            device_class := some "carbon_dioxide"
            process_fn := some process_node_co2 }),
        ("IaqCo2",
          { name := "CO₂ Air Quality"
            native_unit_of_measurement := some "%"
            process_fn := some process_node_iaq
            icon := some "mdi:air-filter" }) ]),
    ("Ventilation",
      [ ("State",
          { name := "Ventilation State"
            state_class := none
            icon := some "mdi:hvac" }),
        ("Mode",
          { name := "Ventilation Mode"
            state_class := none
            icon := some "mdi:hvac" }),
        ("FlowLvlTgt",
          { name := "Flow Level Target"
            native_unit_of_measurement := some "%"
            icon := some "mdi:fan" }),
        ("TimeStateRemain",
          { name := "Time State Remaining"
            native_unit_of_measurement := some "s"
            icon := some "mdi:timer-outline" }),
        ("TimeStateEnd",
          { name := "Time State End"
            native_unit_of_measurement := some "s"
            icon := some "mdi:timer-outline" }),
        ("Pos",
          { name := "Valve Position"
            native_unit_of_measurement := some "%"
            icon := some "mdi:valve" }),
        ("FlowLvlOvrl",
          { name := "Flow Level Override"
            native_unit_of_measurement := some "%"
            icon := some "mdi:fan" }),
        ("FlowLvlReqSensor",
          { name := "Flow Level Sensor Request"
            native_unit_of_measurement := some "%"
            icon := some "mdi:fan" }) ]),
    ("NetworkDuco",
      [ ("CommErrorCtr",
          { name := "Communication Error Counter"
            state_class := some "total_increasing"
            icon := some "mdi:alert-circle-outline" }),
        ("RssiRfN2M",
          { name := "RF Signal Strength (Node to Master)"
            native_unit_of_measurement := some "dBm"
            device_class := some "signal_strength" }),
        ("RssiRfN2H",
          { name := "RF Signal Strength (Node to Hub)"
            native_unit_of_measurement := some "dBm"
            device_class := some "signal_strength" }),
        ("HopRf",
          { name := "RF Hop Count"
            icon := some "mdi:access-point-network" }) ]),
    ("General",
      [ ("UpTime",
          { name := "Uptime"
            native_unit_of_measurement := some "s"
            device_class := some "duration"
            state_class := some "total_increasing" }),
        ("BootCtr",
          { name := "Boot Counter"
            state_class := some "total_increasing"
            icon := some "mdi:restart" }),
        ("WeekCtr",
          { name := "Week Counter"
            state_class := some "total_increasing"
            icon := some "mdi:calendar-week" }) ]) ]

/-- `NODE_SENSOR_REGISTRY.get(module, {})` followed by `registry.get(key)`:
the two dict lookups of `discover_node_sensors`. -/
def registry_get (m k : String) : Option NodeSensorMeta :=
  match alist_get NODE_SENSOR_REGISTRY m with
  | some keys => alist_get keys k
  | none => none

/-- `DucoboxNodeSensorEntityDescription` restricted to the data the claims
reference: identity string (`key`), display name, unit, device class,
statistics class, icon, value-extraction function and the existence path
`(module, key)` stored as its two components. -/
structure NodeSensorDesc where
  key : String
  name : String
  native_unit_of_measurement : Option String
  device_class : Option String
  state_class : Option String
  icon : Option String
  value_fn : List (String × JVal) → Option JVal
  path_module : String
  path_key : String

/-- `_make_value_fn_raw` of `model/devices.py` (lines 784-791): extract the
leaf at `(module, key)` and unwrap its `Val`. -/
def _make_value_fn_raw (m k : String) : List (String × JVal) → Option JVal :=
  fun node => some (extract_val (safe_get (JVal.obj node) [m, k]))

/-- `_make_value_fn_processed` of `model/devices.py` (lines 774-781):
extract the leaf at `(module, key)`, unwrap its `Val` and apply the
processing function. -/
def _make_value_fn_processed (m k : String) (fn : JVal → Option JVal) :
    List (String × JVal) → Option JVal :=
  fun node => fn (extract_val (safe_get (JVal.obj node) [m, k]))

/-- The descriptor `discover_node_sensors` builds for a surviving
`(module, key)` pair (devices.py lines 720-769): registry metadata when
the pair is registered, humanized fallback defaults otherwise. -/
def make_node_desc (m k : String) : NodeSensorDesc :=
  match registry_get m k with
  | some meta =>
      { key := m ++ "_" ++ k
        name := meta.name
        native_unit_of_measurement := meta.native_unit_of_measurement
        device_class := meta.device_class
        state_class := meta.state_class
        icon := meta.icon
        value_fn :=
          match meta.process_fn with
          | some fn => _make_value_fn_processed m k fn
          | none => _make_value_fn_raw m k
        path_module := m
        path_key := k }
  | none =>
      { key := m ++ "_" ++ k
        name := m ++ " " ++ _humanize_key k
        native_unit_of_measurement := none
        device_class := none
        state_class := some "measurement"
        icon := none
        value_fn := _make_value_fn_raw m k
        path_module := m
        path_key := k }

/-- `modules_to_scan` of `discover_node_sensors` (devices.py line 694). -/
def modules_to_scan : List String :=
  ["Sensor", "Ventilation", "NetworkDuco", "General"]

/-- `_general_skip_keys` of `discover_node_sensors` (devices.py lines
698-702): General-module keys that are device metadata, not sensors. -/
def _general_skip_keys : List String :=
  ["Type", "SubType", "ProductId", "NetworkType", "Addr", "SubAddr",
   "Parent", "Asso", "SwVersion", "SerialBoard", "SerialDuco",
   "Name", "Identify", "LinkMode"]

/-- `isinstance(value, dict) and 'Val' in value`: the per-key guard of the
discovery loop (devices.py line 713). -/
def is_val_dict : JVal → Bool
  | JVal.obj fields => (alist_get fields "Val").isSome
  | _ => false

/-- The two `continue` guards of the inner discovery loop combined
(devices.py lines 712-718): the value must be a mapping containing `Val`,
and General-module metadata keys are skipped. -/
def node_keeps (m k : String) (v : JVal) : Bool :=
  is_val_dict v && !(m == "General" && _general_skip_keys.contains k)

/-- One iteration of the outer module loop of `discover_node_sensors`
(devices.py lines 704-769): skip a module the node lacks or whose value is
not a mapping, then emit one descriptor per surviving key. -/
def discover_module (node : List (String × JVal)) (m : String) :
    List NodeSensorDesc :=
  match alist_get node m with
  | some (JVal.obj fields) =>
      fields.filterMap fun kv =>
        if node_keeps m kv.1 kv.2 then some (make_node_desc m kv.1) else none
  | _ => []

/-- `discover_node_sensors` of `model/devices.py` (lines 683-771):
auto-discover sensor descriptors from a node's data dict. -/
def discover_node_sensors (node : List (String × JVal)) :
    List NodeSensorDesc :=
  (modules_to_scan.map (discover_module node)).flatten

/-- A `(module, key)` pair survives discovery on `node`: the module is
scanned and present as a mapping, the key's value is a mapping containing
`Val`, and the pair is not a skipped General metadata key (spec §4.4 steps
1-3 and 6). -/
def node_surviving (node : List (String × JVal)) (m k : String) : Bool :=
  modules_to_scan.contains m &&
  (match alist_get node m with
   | some (JVal.obj fields) =>
       match alist_get fields k with
       | some v => node_keeps m k v
       | none => false
   | _ => false)

/-- `DucoboxSensorEntityDescription` restricted to the data the claims
reference: stable key, display name, value-extraction function and the
existence-check path.  Presentation metadata (units, device classes,
icons) of the box-level table is referenced by no claim and is omitted. -/
structure BoxSensor where
  key : String
  name : String
  value_fn : JVal → Option JVal
  data_path : List String

/-- A box-level entry whose lambda is `safe_get` alone (no converter). -/
def boxRaw (key name : String) (path : List String) : BoxSensor :=
  { key := key, name := name
    value_fn := fun data => some (safe_get data (path ++ ["Val"]))
    data_path := path }

/-- A box-level entry whose lambda composes `safe_get` with a converter. -/
def boxConv (key name : String) (path : List String)
    (fn : JVal → Option JVal) : BoxSensor :=
  { key := key, name := name
    value_fn := fun data => fn (safe_get data (path ++ ["Val"]))
    data_path := path }

/-- The `DiagStatus` lambda (devices.py line 521): read the first element
of the list-valued `SubSystems` field and extract its `Status` attribute,
`None` when the list is absent, not a list, or empty.  A non-mapping first
element makes the Python attribute access raise. -/
def diag_status_fn (data : JVal) : Option JVal :=
  match safe_get data ["info", "Diag", "SubSystems"] with
  | JVal.arr (first :: _) =>
      match first with
      | JVal.obj fields => some ((alist_get fields "Status").getD JVal.null)
      | _ => none
  | _ => some JVal.null

/-- `SENSORS` of `model/devices.py` (lines 74-524): the static, ordered
box-level descriptor table. -/
def SENSORS : List BoxSensor :=
  [ boxConv "TempOda" "Outdoor Temperature"
      ["info", "Ventilation", "Sensor", "TempOda"] process_temperature,
    boxConv "TempSup" "Supply Temperature"
      ["info", "Ventilation", "Sensor", "TempSup"] process_temperature,
    boxConv "TempEta" "Extract Temperature"
      ["info", "Ventilation", "Sensor", "TempEta"] process_temperature,
    boxConv "TempEha" "Exhaust Temperature"
      ["info", "Ventilation", "Sensor", "TempEha"] process_temperature,
    boxConv "SpeedSup" "Supply Fan Speed"
      ["info", "Ventilation", "Fan", "SpeedSup"] process_speed,
    boxConv "SpeedEha" "Exhaust Fan Speed"
      ["info", "Ventilation", "Fan", "SpeedEha"] process_speed,
    boxConv "PressSup" "Supply Pressure"
      ["info", "Ventilation", "Fan", "PressSup"] process_pressure,
    boxConv "PressEha" "Exhaust Pressure"
      ["info", "Ventilation", "Fan", "PressEha"] process_pressure,
    boxRaw "PwmSup" "Supply Fan PWM"
      ["info", "Ventilation", "Fan", "PwmSup"],
    boxRaw "PwmEha" "Exhaust Fan PWM"
      ["info", "Ventilation", "Fan", "PwmEha"],
    boxConv "PressSupTgt" "Supply Pressure Target"
      ["info", "Ventilation", "Fan", "PressSupTgt"] process_pressure,
    boxConv "PressEhaTgt" "Exhaust Pressure Target"
      ["info", "Ventilation", "Fan", "PressEhaTgt"] process_pressure,
    boxConv "RssiWifi" "Wi-Fi Signal Strength"
      ["info", "General", "Lan", "RssiWifi"] process_rssi,
    boxConv "UpTime" "Device Uptime"
      ["info", "General", "Board", "UpTime"] process_uptime,
    boxConv "TimeFilterRemain" "Filter Time Remaining"
      ["info", "HeatRecovery", "General", "TimeFilterRemain"]
      process_timefilterremain,
    boxConv "BypassPos" "Bypass Position"
      ["info", "HeatRecovery", "Bypass", "Pos"] process_bypass_position,
    boxConv "BypassTempSupTgt" "Bypass Supply Temperature Target"
      ["info", "HeatRecovery", "Bypass", "TempSupTgt"] process_temperature,
    boxRaw "FrostProtectState" "Frost Protection State"
      ["info", "HeatRecovery", "ProtectFrost", "State"],
    boxRaw "FrostProtectPressReduct" "Frost Protection Pressure Reduction"
      ["info", "HeatRecovery", "ProtectFrost", "PressReduct"],
    boxConv "NightBoostTempOutsideAvg" "NightBoost Outside Temperature Average"
      ["info", "NightBoost", "General", "TempOutsideAvg"] process_temperature,
    boxRaw "NightBoostFlowLvlReqZone1" "NightBoost Flow Level Request Zone 1"
      ["info", "NightBoost", "General", "FlowLvlReqZone1"],
    boxConv "NightBoostTempOutsideAvgThs" "NightBoost Outside Temperature Threshold"
      ["info", "NightBoost", "General", "TempOutsideAvgThs"] process_temperature,
    boxConv "NightBoostTempOutside" "NightBoost Outside Temperature"
      ["info", "NightBoost", "General", "TempOutside"] process_temperature,
    boxConv "NightBoostTempComfort" "NightBoost Comfort Temperature"
      ["info", "NightBoost", "General", "TempComfort"] process_temperature,
    boxConv "NightBoostTempZone1" "NightBoost Zone 1 Temperature"
      ["info", "NightBoost", "General", "TempZone1"] process_temperature,
    boxRaw "VentCoolState" "Ventilation Cooling State"
      ["info", "VentCool", "General", "State"],
    boxConv "VentCoolTempInside" "Ventilation Cooling Inside Temperature"
      ["info", "VentCool", "General", "TempInside"] process_temperature,
    boxConv "VentCoolTempOutsideAvgThs" "VentCool Outside Temperature Threshold"
      ["info", "VentCool", "General", "TempOutsideAvgThs"] process_temperature,
    boxConv "VentCoolTempOutsideAvg" "VentCool Outside Temperature Average"
      ["info", "VentCool", "General", "TempOutsideAvg"] process_temperature,
    boxConv "VentCoolTempInsideMin" "VentCool Minimum Inside Temperature"
      ["info", "VentCool", "General", "TempInsideMin"] process_temperature,
    boxConv "VentCoolTempInsideMax" "VentCool Maximum Inside Temperature"
      ["info", "VentCool", "General", "TempInsideMax"] process_temperature,
    boxConv "VentCoolTempComfort" "VentCool Comfort Temperature"
      ["info", "VentCool", "General", "TempComfort"] process_temperature,
    boxConv "VentCoolTempOutside" "VentCool Outside Temperature"
      ["info", "VentCool", "General", "TempOutside"] process_temperature,
    boxRaw "PwmLvlSup" "Supply Fan PWM Level"
      ["info", "Ventilation", "Fan", "PwmLvlSup"],
    boxRaw "PwmLvlEha" "Exhaust Fan PWM Level"
      ["info", "Ventilation", "Fan", "PwmLvlEha"],
    boxRaw "CalibrationState" "Calibration State"
      ["info", "Ventilation", "Calibration", "State"],
    boxRaw "CalibrationStatus" "Calibration Status"
      ["info", "Ventilation", "Calibration", "Status"],
    boxRaw "LanMode" "Network Mode"
      ["info", "General", "Lan", "Mode"],
    boxRaw "LanIp" "IP Address"
      ["info", "General", "Lan", "Ip"],
    boxRaw "NetworkDucoState" "Duco Network State"
      ["info", "General", "NetworkDuco", "State"],
    boxRaw "PublicApiWriteReqCntRemain" "API Write Requests Remaining"
      ["info", "General", "PublicApi", "WriteReqCntRemain"],
    boxRaw "HeaterOdaPresent" "ODA Heater Present"
      ["info", "HeatRecovery", "ProtectFrost", "HeaterOdaPresent"],
    { key := "DiagStatus", name := "Diagnostic Status"
      value_fn := diag_status_fn
      data_path := ["info", "Diag", "SubSystems"] } ]

/-- `_is_number_param` of `number.py` (lines 27-35): a configurable number
parameter is a dict carrying all four of `Val`, `Min`, `Max`, `Inc`. -/
def _is_number_param : JVal → Bool
  | JVal.obj fields =>
      (alist_get fields "Val").isSome && (alist_get fields "Min").isSome &&
      (alist_get fields "Max").isSome && (alist_get fields "Inc").isSome
  | _ => false

/-- `_is_boolean_param` of `switch.py` (lines 25-31): a number parameter
with `Min == 0` and `Max == 1`. -/
def _is_boolean_param (v : JVal) : Bool :=
  _is_number_param v && pyEq (pyItem v "Min") (JVal.num 0) &&
    pyEq (pyItem v "Max") (JVal.num 1)

/-- `_box_config_skip` of `number.py` (lines 82-89): submodules excluded
wholesale from the number and switch scans. -/
def _box_config_skip : List (String × String) :=
  [("General", "Setup"), ("General", "Modbus"), ("General", "AutoRebootComm"),
   ("General", "PublicApi"), ("Firmware", "General"), ("Azure", "Connection")]

/-- `_box_config_skip_keys` of `number.py` (lines 92-96): individual
`(module, submodule, key)` triples excluded from the number and switch
scans. -/
def _box_config_skip_keys : List (String × String × String) :=
  [("General", "Lan", "Mode"), ("General", "Lan", "Dhcp"),
   ("General", "Lan", "TimeDucoClientIp")]

/-- Box-level number classification of `number.py` (lines 98-131): iterate
module → submodule → key over the `config` section, keeping tunable leaves
that are not fixed (`Min == Max`) and not in a skip set.  The emitted
identity is the `(module, submodule, key)` triple of the entity's unique
id.  A non-mapping `config` section would make the Python iteration raise;
the coordinator always supplies a mapping, and the case is modelled as
producing nothing. -/
def box_number_scan (config : JVal) : List (String × String × String) :=
  match config with
  | JVal.obj modules =>
      modules.flatMap fun ms =>
        match ms.2 with
        | JVal.obj subs =>
            subs.flatMap fun ss =>
              if _box_config_skip.contains (ms.1, ss.1) then []
              else
                match ss.2 with
                | JVal.obj leaves =>
                    leaves.flatMap fun kv =>
                      if !_is_number_param kv.2 then []
                      else if pyEq (pyItem kv.2 "Min") (pyItem kv.2 "Max") then []
                      else if _box_config_skip_keys.contains (ms.1, ss.1, kv.1) then []
                      else [(ms.1, ss.1, kv.1)]
                | _ => []
        | _ => []
  | _ => []

/-- Box-level switch classification of `switch.py` (lines 64-92): the same
module → submodule → key iteration, keeping boolean-shaped leaves
(`Min == 0`, `Max == 1`) that are not in a skip set. -/
def box_switch_scan (config : JVal) : List (String × String × String) :=
  match config with
  | JVal.obj modules =>
      modules.flatMap fun ms =>
        match ms.2 with
        | JVal.obj subs =>
            subs.flatMap fun ss =>
              if _box_config_skip.contains (ms.1, ss.1) then []
              else
                match ss.2 with
                | JVal.obj leaves =>
                    leaves.flatMap fun kv =>
                      if !_is_boolean_param kv.2 then []
                      else if _box_config_skip_keys.contains (ms.1, ss.1, kv.1) then []
                      else [(ms.1, ss.1, kv.1)]
                | _ => []
        | _ => []
  | _ => []

/-- `_CONFIG_SELECT_PARAMS` of `select.py` (lines 35-46): the enum-label
table mapping registered config paths to ordered (raw value, label)
pairs. -/
def _CONFIG_SELECT_PARAMS :
    List ((String × String × String) × List (ℤ × String)) :=
  [ (("HeatRecovery", "Bypass", "Mode"),
      [(0, "Auto"), (1, "Closed"), (2, "Open")]),
    (("VentCool", "General", "Mode"),
      [(0, "Off"), (1, "Auto"), (2, "On")]) ]

/-- Box-level select classification of `select.py` (lines 115-139): one
select per registered enum-label path whose leaf is present in the
`config` section (`safe_get` not `None`). -/
def box_select_scan (config : JVal) : List (String × String × String) :=
  _CONFIG_SELECT_PARAMS.filterMap fun entry =>
    match safe_get config [entry.1.1, entry.1.2.1, entry.1.2.2] with
    | JVal.null => none
    | _ => some entry.1

/-- A node-level number candidate: the key plus the bounds the entity is
constructed with (`int(value['Min'])` and friends, number.py lines
160-162). -/
structure NodeNumberCand where
  key : String
  minVal : ℤ
  maxVal : ℤ
  step : ℤ

/-- The entity construction for one node-level leaf (number.py lines
152-164): `int()` of the three bounds; a bound `int()` cannot coerce makes
Python raise, modelled as `none`. -/
def node_number_entity (k : String) (v : JVal) : Option NodeNumberCand :=
  match pyInt (pyItem v "Min"), pyInt (pyItem v "Max"), pyInt (pyItem v "Inc") with
  | some mn, some mx, some inc => some ⟨k, mn, mx, inc⟩
  | _, _, _ => none

/-- Node-level number classification of `number.py` (lines 150-164): every
leaf of a node dict that carries `Val`, `Min`, `Max` and `Inc` becomes a
number candidate; no other check is applied.  `none` models an exception
raised while building an entity, which aborts the whole pass before any
entity is added. -/
def node_number_scan : List (String × JVal) → Option (List NodeNumberCand)
  | [] => some []
  | kv :: rest =>
      if _is_number_param kv.2 then
        match node_number_entity kv.1 kv.2, node_number_scan rest with
        | some c, some cs => some (c :: cs)
        | _, _ => none
      else node_number_scan rest

/-- The MAC lookup shared by the setup passes (sensor.py line 26,
number.py line 54, switch.py line 43). -/
def mac_of (doc : JVal) : JVal :=
  safe_get doc ["info", "General", "Lan", "Mac", "Val"]

/-- The early-return guard of the sensor, number and switch setup passes:
`mac_address = safe_get(...) or "unknown_mac"` followed by
`if mac_address == 'unknown_mac': return`.  True when the pass returns
with no entities. -/
def mac_guard (doc : JVal) : Bool :=
  let mac := if pyTruthy (mac_of doc) then mac_of doc else JVal.str "unknown_mac"
  pyEq mac (JVal.str "unknown_mac")

/-- `coordinator.data.get('config', {})`: the config section, an empty
mapping when absent.  The coordinator's data is always a mapping. -/
def config_of (doc : JVal) : JVal :=
  match doc with
  | JVal.obj fields => (alist_get fields "config").getD (JVal.obj [])
  | _ => JVal.obj []

/-- `safe_get(...) or []` followed by `for node in ...`: a list iterates,
a falsy value yields nothing, and a truthy non-list raises. -/
def iter_nodes (v : JVal) : Option (List JVal) :=
  match v with
  | JVal.arr elems => some elems
  | v => if pyTruthy v then none else some []

/-- One entity emitted by the number setup pass: a box-level config triple
or a node-level candidate tagged with its node id. -/
inductive NumberEnt where
  | box (module submodule key : String)
  | node (nodeId : JVal) (cand : NodeNumberCand)

/-- The per-node body of the node-level number loop (number.py lines
135-164): `node['Node']` raises when the node is not a mapping or lacks
the key; otherwise every tunable leaf becomes an entity. -/
def node_number_entities (n : JVal) : Option (List NumberEnt) :=
  match n with
  | JVal.obj fields =>
      match alist_get fields "Node" with
      | some nid => (node_number_scan fields).map (List.map (NumberEnt.node nid))
      | none => none
  | _ => none

/-- `async_setup_entry` of `number.py` (lines 45-166) reduced to the
entities it adds: the early MAC return, then the box-level scan followed
by the node-level scan over `config_nodes.Nodes`.  `none` models an
exception aborting the pass before any entity is added. -/
def number_setup (doc : JVal) : Option (List NumberEnt) :=
  if mac_guard doc then some []
  else
    match iter_nodes (safe_get doc ["config_nodes", "Nodes"]) with
    | none => none
    | some ns =>
        (ns.mapM node_number_entities).map fun ls =>
          (box_number_scan (config_of doc)).map
            (fun p => NumberEnt.box p.1 p.2.1 p.2.2) ++ ls.flatten

/-- `async_setup_entry` of `switch.py` (lines 34-93) reduced to the
entities it adds: the early MAC return, then the box-level switch scan. -/
def switch_setup (doc : JVal) : List (String × String × String) :=
  if mac_guard doc then [] else box_switch_scan (config_of doc)

/-- The per-node body of the sensor setup's node loop (sensor.py lines
69-104): a non-mapping node makes the attribute accesses raise; otherwise
the discovered descriptors' identity keys are emitted. -/
def sensor_node_keys (n : JVal) : Option (List String) :=
  match n with
  | JVal.obj fields =>
      some ((discover_node_sensors fields).map (fun d => d.key))
  | _ => none

/-- `async_setup_entry` of `sensor.py` (lines 16-106) reduced to the
identity keys of the entities it adds: the early MAC return, then the
box-level descriptors whose existence path resolves, then the discovered
node sensors of every node in the `nodes` section. -/
def sensor_setup (doc : JVal) : Option (List String) :=
  if mac_guard doc then some []
  else
    match iter_nodes (safe_get doc ["nodes"]) with
    | none => none
    | some ns =>
        (ns.mapM sensor_node_keys).map fun ls =>
          (SENSORS.filter fun s =>
              match safe_get doc s.data_path with
              | JVal.null => false
              | _ => true).map (fun s => s.key) ++ ls.flatten

/-- Every mapping directly stored in a node dict has Python's dict
invariant: no repeated keys. -/
def innerNodupB (node : List (String × JVal)) : Bool :=
  node.all fun p =>
    match p.2 with
    | JVal.obj fields => nodupKeysB fields
    | _ => true

/-- Python-dict well-formedness of a `config` section down to the leaf
level: no repeated keys among modules, submodules or parameter keys. -/
def configWFB (cfg : JVal) : Bool :=
  match cfg with
  | JVal.obj ms =>
      nodupKeysB ms && ms.all fun mp =>
        match mp.2 with
        | JVal.obj ss =>
            nodupKeysB ss && ss.all fun sp =>
              match sp.2 with
              | JVal.obj ks => nodupKeysB ks
              | _ => true
        | _ => true
  | _ => true

/-- The leaf stored at `config[m][s][k]`, when the three levels above it
are mappings holding the keys. -/
def config_leaf_at (cfg : JVal) (m s k : String) : Option JVal :=
  match cfg with
  | JVal.obj ms =>
      match alist_get ms m with
      | some (JVal.obj ss) =>
          match alist_get ss s with
          | some (JVal.obj ks) => alist_get ks k
          | _ => none
      | _ => none
  | _ => none

/-- A path resolves through nested mappings to a value: the walk the spec
describes for `safe_get`. -/
inductive Resolves : JVal → List String → JVal → Prop where
  | nil (d : JVal) : Resolves d [] d
  | step {fields : List (String × JVal)} {k : String} {rest : List String}
      {v w : JVal} :
      alist_get fields k = some v → Resolves v rest w →
      Resolves (JVal.obj fields) (k :: rest) w

/-- The metadata contract of one discovered descriptor (spec §4.4 steps
4-5): registry metadata when `(module, key)` is registered, humanized
fallback defaults otherwise. -/
def meta_spec (m k : String) (d : NodeSensorDesc) : Prop :=
  match registry_get m k with
  | some meta =>
      d.name = meta.name ∧
      d.native_unit_of_measurement = meta.native_unit_of_measurement ∧
      d.device_class = meta.device_class ∧
      d.state_class = meta.state_class ∧
      d.icon = meta.icon
  | none =>
      d.name = m ++ " " ++ _humanize_key k ∧
      d.native_unit_of_measurement = none ∧
      d.device_class = none ∧
      d.state_class = some "measurement" ∧
      d.icon = none

/-- A tunable boolean-shaped leaf `{'Val': 0, 'Min': 0, 'Max': 1,
'Inc': 1}`. -/
def booleanLeaf : JVal :=
  JVal.obj [("Val", JVal.num 0), ("Min", JVal.num 0),
            ("Max", JVal.num 1), ("Inc", JVal.num 1)]

/-- A fixed tunable leaf `{'Val': 1, 'Min': 1, 'Max': 1, 'Inc': 1}`. -/
def fixedLeaf : JVal :=
  JVal.obj [("Val", JVal.num 1), ("Min", JVal.num 1),
            ("Max", JVal.num 1), ("Inc", JVal.num 1)]

/-- A config section holding one boolean-shaped leaf at the unskipped path
`('NightBoost', 'General', 'Enable')`. -/
def enableConfig : JVal :=
  JVal.obj [("NightBoost", JVal.obj [("General", JVal.obj
    [("Enable", booleanLeaf)])])]

/-- A config section holding one boolean-shaped leaf at the enum-label
registered path `('HeatRecovery', 'Bypass', 'Mode')`. -/
def bypassBooleanConfig : JVal :=
  JVal.obj [("HeatRecovery", JVal.obj [("Bypass", JVal.obj
    [("Mode", booleanLeaf)])])]

/-- A config section holding one fixed (`Min == Max`) leaf at the
enum-label registered path `('HeatRecovery', 'Bypass', 'Mode')`. -/
def fixedModeConfig : JVal :=
  JVal.obj [("HeatRecovery", JVal.obj [("Bypass", JVal.obj
    [("Mode", fixedLeaf)])])]

/-- A node dict holding one fixed (`Min == Max`) tunable leaf. -/
def fixedLeafNode : List (String × JVal) :=
  [("FlowMax", fixedLeaf)]

/-- A node dict with a registry-known sensor key and an unknown one. -/
def discoveryNode : List (String × JVal) :=
  [("Sensor", JVal.obj
    [("Temp", JVal.obj [("Val", JVal.num 20)]),
     ("NewSensor", JVal.obj [("Val", JVal.num 123)])])]

/-- A node dict as found in `config_nodes.Nodes`, with a tunable leaf and
a non-tunable one. -/
def co2Node : List (String × JVal) :=
  [("Node", JVal.num 3),
   ("SerialBoard", JVal.str "RS0000000002"),
   ("Co2SetPoint", JVal.obj
     [("Val", JVal.num 1400), ("Min", JVal.num 0),
      ("Max", JVal.num 2000), ("Inc", JVal.num 10)]),
   ("Name", JVal.obj [("Val", JVal.str "")])]

/-- A device document whose only populated value is the `TempOda` leaf
`{'Val': 108}`. -/
def tempOdaDoc : JVal :=
  JVal.obj [("info", JVal.obj [("Ventilation", JVal.obj [("Sensor",
    JVal.obj [("TempOda", JVal.obj [("Val", JVal.num 108)])])])])]

/-- A device document with config, config_nodes and nodes sections but no
MAC address. -/
def noMacDoc : JVal :=
  JVal.obj
    [("info", JVal.obj [("General", JVal.obj [("Board", JVal.obj
        [("BoxName", JVal.obj [("Val", JVal.str "ENERGY")])])])]),
     ("config", JVal.obj [("VentCool", JVal.obj [("General", JVal.obj
        [("TimeStart", JVal.obj
          [("Val", JVal.num 1320), ("Min", JVal.num 0),
           ("Max", JVal.num 1439), ("Inc", JVal.num 1)])])])]),
     ("config_nodes", JVal.obj [("Nodes", JVal.arr
        [JVal.obj (("Node", JVal.num 1) :: co2Node.drop 1)])]),
     ("nodes", JVal.arr [JVal.obj discoveryNode])]

section Lemmas

variable {α : Type}

theorem alist_get_mem {fields : List (String × α)} {k : String} {v : α}
    (h : alist_get fields k = some v) : (k, v) ∈ fields := by
  induction fields with
  | nil => simp [alist_get] at h
  | cons p rest ih =>
      obtain ⟨k', v'⟩ := p
      rw [alist_get] at h
      split at h
      · rename_i hk
        injection h with h
        subst hk; subst h
        exact List.mem_cons_self _ _
      · exact List.mem_cons_of_mem _ (ih h)

theorem alist_get_of_mem_nodup {fields : List (String × α)}
    (hnd : (fields.map Prod.fst).Nodup) {k : String} {v : α}
    (h : (k, v) ∈ fields) : alist_get fields k = some v := by
  induction fields with
  | nil => simp at h
  | cons p rest ih =>
      obtain ⟨k', v'⟩ := p
      simp only [List.map_cons, List.nodup_cons] at hnd
      rcases List.mem_cons.mp h with heq | hmem
      · obtain ⟨rfl, rfl⟩ := Prod.mk.injEq .. ▸ heq.symm
        simp [alist_get]
      · have hne : k' ≠ k := by
          rintro rfl
          exact hnd.1 (List.mem_map_of_mem Prod.fst hmem)
        rw [alist_get, if_neg hne]
        exact ih hnd.2 hmem

theorem mem_key_unique {fields : List (String × α)}
    (hnd : (fields.map Prod.fst).Nodup) {k : String} {v v' : α}
    (h1 : (k, v) ∈ fields) (h2 : (k, v') ∈ fields) : v = v' := by
  have e1 := alist_get_of_mem_nodup hnd h1
  have e2 := alist_get_of_mem_nodup hnd h2
  rw [e1] at e2
  injection e2

theorem nodupKeysB_iff {fields : List (String × α)} :
    nodupKeysB fields = true ↔ (fields.map Prod.fst).Nodup := by
  simp [nodupKeysB]

theorem node_number_entity_key {k : String} {v : JVal} {c : NodeNumberCand}
    (h : node_number_entity k v = some c) : c.key = k := by
  rw [node_number_entity] at h
  split at h
  · injection h with h
    subst h
    rfl
  · cases h

theorem node_number_scan_keys :
    ∀ {node : List (String × JVal)} {l : List NodeNumberCand},
      node_number_scan node = some l →
      l.map (fun c => c.key) =
        (node.filter (fun kv => _is_number_param kv.2)).map Prod.fst := by
  intro node
  induction node with
  | nil =>
      intro l h
      rw [node_number_scan] at h
      injection h with h
      subst h
      rfl
  | cons kv rest ih =>
      intro l h
      rw [node_number_scan] at h
      by_cases hnum : _is_number_param kv.2
      · rw [if_pos hnum] at h
        split at h
        · rename_i c cs hc hcs
          injection h with h
          subst h
          simp only [List.map_cons, List.filter_cons, hnum, ite_true]
          rw [node_number_entity_key hc, ih hcs]
        · cases h
      · rw [if_neg hnum] at h
        simp only [List.filter_cons]
        rw [if_neg (by simpa using hnum)]
        exact ih h

theorem string_append_left_cancel {a b c : String} (h : a ++ b = a ++ c) :
    b = c := by
  have hd := congrArg String.data h
  rw [String.data_append, String.data_append] at hd
  exact String.ext (List.append_cancel_left hd)

theorem module_key_string_ne {m₁ m₂ k₁ k₂ : String}
    (h1 : m₁ ∈ modules_to_scan) (h2 : m₂ ∈ modules_to_scan)
    (hne : m₁ ≠ m₂) : m₁ ++ "_" ++ k₁ ≠ m₂ ++ "_" ++ k₂ := by
  intro h
  have hd := congrArg String.data h
  have hS : ("Sensor" : String).data = ['S', 'e', 'n', 's', 'o', 'r'] := rfl
  have hV : ("Ventilation" : String).data =
      ['V', 'e', 'n', 't', 'i', 'l', 'a', 't', 'i', 'o', 'n'] := rfl
  have hN : ("NetworkDuco" : String).data =
      ['N', 'e', 't', 'w', 'o', 'r', 'k', 'D', 'u', 'c', 'o'] := rfl
  have hG : ("General" : String).data = ['G', 'e', 'n', 'e', 'r', 'a', 'l'] := rfl
  fin_cases h1 <;> fin_cases h2 <;>
    first
      | exact hne rfl
      | (simp only [String.data_append, hS, hV, hN, hG] at hd; simp at hd)

theorem mem_box_number_scan {cfg : JVal} {p : String × String × String}
    (h : p ∈ box_number_scan cfg) :
    ∃ ms subs leaves leaf, cfg = JVal.obj ms ∧
      (p.1, JVal.obj subs) ∈ ms ∧ (p.2.1, JVal.obj leaves) ∈ subs ∧
      (p.2.2, leaf) ∈ leaves ∧
      _box_config_skip.contains (p.1, p.2.1) = false ∧
      _is_number_param leaf = true ∧
      pyEq (pyItem leaf "Min") (pyItem leaf "Max") = false ∧
      _box_config_skip_keys.contains p = false := by
  cases cfg with
  | obj ms =>
      rw [box_number_scan] at h
      rw [List.mem_flatMap] at h
      obtain ⟨⟨m1, mv⟩, hms, h⟩ := h
      cases mv with
      | obj subs =>
          simp only [List.mem_flatMap] at h
          obtain ⟨⟨s1, sv⟩, hss, h⟩ := h
          simp only at h
          split at h
          · simp at h
          · rename_i hskip
            cases sv with
            | obj leaves =>
                simp only [List.mem_flatMap] at h
                obtain ⟨⟨k1, leaf⟩, hkv, h⟩ := h
                simp only at h
                split at h
                · simp at h
                · split at h
                  · simp at h
                  · split at h
                    · simp at h
                    · rename_i hnum hfixed hskipk
                      rw [List.mem_singleton] at h
                      subst h
                      refine ⟨ms, subs, leaves, leaf, rfl, hms, hss, hkv,
                        ?_, ?_, ?_, ?_⟩
                      · exact Bool.of_not_eq_true hskip
                      · simpa using hnum
                      · exact Bool.of_not_eq_true hfixed
                      · exact Bool.of_not_eq_true hskipk
            | null => simp at h
            | bool b => simp at h
            | num q => simp at h
            | str s => simp at h
            | arr l => simp at h
      | null => simp at h
      | bool b => simp at h
      | num q => simp at h
      | str s => simp at h
      | arr l => simp at h
  | null => simp [box_number_scan] at h
  | bool b => simp [box_number_scan] at h
  | num q => simp [box_number_scan] at h
  | str s => simp [box_number_scan] at h
  | arr l => simp [box_number_scan] at h

theorem mem_box_switch_scan {cfg : JVal} {p : String × String × String}
    (h : p ∈ box_switch_scan cfg) :
    ∃ ms subs leaves leaf, cfg = JVal.obj ms ∧
      (p.1, JVal.obj subs) ∈ ms ∧ (p.2.1, JVal.obj leaves) ∈ subs ∧
      (p.2.2, leaf) ∈ leaves ∧
      _box_config_skip.contains (p.1, p.2.1) = false ∧
      _is_boolean_param leaf = true ∧
      _box_config_skip_keys.contains p = false := by
  cases cfg with
  | obj ms =>
      rw [box_switch_scan] at h
      rw [List.mem_flatMap] at h
      obtain ⟨⟨m1, mv⟩, hms, h⟩ := h
      cases mv with
      | obj subs =>
          simp only [List.mem_flatMap] at h
          obtain ⟨⟨s1, sv⟩, hss, h⟩ := h
          simp only at h
          split at h
          · simp at h
          · rename_i hskip
            cases sv with
            | obj leaves =>
                simp only [List.mem_flatMap] at h
                obtain ⟨⟨k1, leaf⟩, hkv, h⟩ := h
                simp only at h
                split at h
                · simp at h
                · split at h
                  · simp at h
                  · rename_i hbool hskipk
                    rw [List.mem_singleton] at h
                    subst h
                    refine ⟨ms, subs, leaves, leaf, rfl, hms, hss, hkv,
                      ?_, ?_, ?_⟩
                    · exact Bool.of_not_eq_true hskip
                    · simpa using hbool
                    · exact Bool.of_not_eq_true hskipk
            | null => simp at h
            | bool b => simp at h
            | num q => simp at h
            | str s => simp at h
            | arr l => simp at h
      | null => simp at h
      | bool b => simp at h
      | num q => simp at h
      | str s => simp at h
      | arr l => simp at h
  | null => simp [box_switch_scan] at h
  | bool b => simp [box_switch_scan] at h
  | num q => simp [box_switch_scan] at h
  | str s => simp [box_switch_scan] at h
  | arr l => simp [box_switch_scan] at h

theorem mem_box_select_scan {cfg : JVal} {p : String × String × String} :
    p ∈ box_select_scan cfg ↔
      (∃ pairs, (p, pairs) ∈ _CONFIG_SELECT_PARAMS) ∧
      safe_get cfg [p.1, p.2.1, p.2.2] ≠ JVal.null := by
  rw [box_select_scan, List.mem_filterMap]
  constructor
  · rintro ⟨entry, hentry, hf⟩
    cases hsg : safe_get cfg [entry.1.1, entry.1.2.1, entry.1.2.2] <;>
      rw [hsg] at hf <;> simp at hf <;> subst hf <;>
      exact ⟨⟨entry.2, by simpa using hentry⟩, by simp [hsg]⟩
  · rintro ⟨⟨pairs, hmem⟩, hne⟩
    refine ⟨(p, pairs), hmem, ?_⟩
    cases hsg : safe_get cfg [p.1, p.2.1, p.2.2] with
    | null => exact absurd hsg hne
    | bool b => rfl
    | num q => rfl
    | str s => rfl
    | obj fields => rfl
    | arr elems => rfl

theorem pyEq_zero_one_absurd {a b : JVal}
    (h0 : pyEq a (JVal.num 0) = true) (h1 : pyEq b (JVal.num 1) = true)
    (he : pyEq a b = true) : False := by
  cases a <;> cases b <;> simp [pyEq] at h0 h1 he <;>
    subst h0 <;> subst h1 <;> norm_num at he

theorem safe_get_nil (d : JVal) : safe_get d [] = d := by
  cases d <;> rfl

theorem make_node_desc_key (m k : String) :
    (make_node_desc m k).key = m ++ "_" ++ k := by
  cases h : registry_get m k <;> simp [make_node_desc, h]

theorem make_node_desc_path (m k : String) :
    (make_node_desc m k).path_module = m ∧ (make_node_desc m k).path_key = k := by
  cases h : registry_get m k <;> simp [make_node_desc, h]

theorem make_node_desc_meta (m k : String) :
    meta_spec m k (make_node_desc m k) := by
  cases h : registry_get m k <;> simp [meta_spec, make_node_desc, h]

theorem mem_discover_module {node : List (String × JVal)} {m : String}
    {d : NodeSensorDesc} (h : d ∈ discover_module node m) :
    ∃ fields k v, alist_get node m = some (JVal.obj fields) ∧
      (k, v) ∈ fields ∧ node_keeps m k v = true ∧ d = make_node_desc m k := by
  rw [discover_module] at h
  split at h
  · rename_i fields heq
    rw [List.mem_filterMap] at h
    obtain ⟨⟨k, v⟩, hkv, hf⟩ := h
    simp only at hf
    split at hf
    · rename_i hkeep
      injection hf with hf
      exact ⟨fields, k, v, heq, hkv, hkeep, hf.symm⟩
    · cases hf
  · simp at h

theorem discover_module_key_ne_filter {node : List (String × JVal)}
    {m' m k : String} (hm' : m' ∈ modules_to_scan) (hm : m ∈ modules_to_scan)
    (hne : m' ≠ m) :
    (discover_module node m').filter (fun d => d.key == m ++ "_" ++ k) = [] := by
  rw [List.filter_eq_nil_iff]
  intro d hd
  obtain ⟨fields, k', v', _, _, _, rfl⟩ := mem_discover_module hd
  rw [make_node_desc_key]
  simp only [beq_iff_eq]
  exact module_key_string_ne hm' hm hne

theorem filterMap_keys_filter_nil {m k : String}
    {fields : List (String × JVal)} (hk : k ∉ fields.map Prod.fst) :
    ((fields.filterMap fun kv =>
        if node_keeps m kv.1 kv.2 then some (make_node_desc m kv.1)
        else none).filter
      (fun d => d.key == m ++ "_" ++ k)) = [] := by
  rw [List.filter_eq_nil_iff]
  intro d hd
  rw [List.mem_filterMap] at hd
  obtain ⟨⟨k', v'⟩, hkv, hf⟩ := hd
  simp only at hf
  split at hf
  · injection hf with hf
    subst hf
    rw [make_node_desc_key]
    simp only [beq_iff_eq]
    intro heq
    exact hk (string_append_left_cancel heq ▸ List.mem_map_of_mem Prod.fst hkv)
  · cases hf

theorem filterMap_keys_filter_self {m k : String}
    {fields : List (String × JVal)} {v : JVal}
    (hnd : (fields.map Prod.fst).Nodup)
    (hkv : alist_get fields k = some v) (hkeep : node_keeps m k v = true) :
    ((fields.filterMap fun kv =>
        if node_keeps m kv.1 kv.2 then some (make_node_desc m kv.1)
        else none).filter
      (fun d => d.key == m ++ "_" ++ k)) = [make_node_desc m k] := by
  induction fields with
  | nil => simp [alist_get] at hkv
  | cons p rest ih =>
      obtain ⟨k0, v0⟩ := p
      simp only [List.map_cons, List.nodup_cons] at hnd
      rw [alist_get] at hkv
      by_cases hk : k0 = k
      · subst hk
        rw [if_pos rfl] at hkv
        injection hkv with hkv
        subst hkv
        rw [List.filterMap_cons, if_pos hkeep, List.filter_cons,
          if_pos (by rw [make_node_desc_key]; simp)]
        rw [filterMap_keys_filter_nil hnd.1]
      · rw [if_neg hk] at hkv
        rw [List.filterMap_cons]
        split
        · exact ih hnd.2 hkv
        · rename_i b heq
          have hb : b = make_node_desc m k0 := by
            by_cases hkeep0 : node_keeps m k0 v0 = true
            · rw [if_pos hkeep0] at heq
              injection heq with heq
              exact heq.symm
            · rw [if_neg hkeep0] at heq
              cases heq
          subst hb
          rw [List.filter_cons,
            if_neg (by
              rw [make_node_desc_key]
              simp only [beq_iff_eq]
              intro heq2
              exact hk (string_append_left_cancel heq2)
              )]
          exact ih hnd.2 hkv

theorem discover_module_self_filter {node : List (String × JVal)}
    {m k : String} {fields : List (String × JVal)} {v : JVal}
    (hget : alist_get node m = some (JVal.obj fields))
    (hnd : (fields.map Prod.fst).Nodup)
    (hkv : alist_get fields k = some v) (hkeep : node_keeps m k v = true) :
    (discover_module node m).filter (fun d => d.key == m ++ "_" ++ k) =
      [make_node_desc m k] := by
  rw [discover_module, hget]
  exact filterMap_keys_filter_self hnd hkv hkeep

theorem config_levels_unique {ms subs leaves : List (String × JVal)}
    {m s k : String} {leaf leaf' : JVal}
    (hwf : configWFB (JVal.obj ms) = true)
    (hleaf : config_leaf_at (JVal.obj ms) m s k = some leaf)
    (h1 : (m, JVal.obj subs) ∈ ms) (h2 : (s, JVal.obj leaves) ∈ subs)
    (h3 : (k, leaf') ∈ leaves) : leaf' = leaf := by
  rw [configWFB, Bool.and_eq_true, List.all_eq_true] at hwf
  obtain ⟨hnd1, hall1⟩ := hwf
  have hnd1' : (ms.map Prod.fst).Nodup := nodupKeysB_iff.mp hnd1
  have hinner1 := hall1 (m, JVal.obj subs) h1
  simp only [Bool.and_eq_true, List.all_eq_true] at hinner1
  obtain ⟨hnd2, hall2⟩ := hinner1
  have hnd2' : (subs.map Prod.fst).Nodup := nodupKeysB_iff.mp hnd2
  have hinner2 := hall2 (s, JVal.obj leaves) h2
  simp only at hinner2
  have hnd3' : (leaves.map Prod.fst).Nodup := nodupKeysB_iff.mp hinner2
  have e1 : alist_get ms m = some (JVal.obj subs) :=
    alist_get_of_mem_nodup hnd1' h1
  have e2 : alist_get subs s = some (JVal.obj leaves) :=
    alist_get_of_mem_nodup hnd2' h2
  have e3 : alist_get leaves k = some leaf' :=
    alist_get_of_mem_nodup hnd3' h3
  simp only [config_leaf_at, e1, e2, e3, Option.some.injEq] at hleaf
  exact hleaf

end Lemmas

/-- C1: the claimed classifier partition fails on the code.  The
boolean-shaped config leaf at the unskipped path
`('NightBoost', 'General', 'Enable')` is emitted both by the box-level
number scan of number.py (which has no boolean or enum exclusion) and by
the box-level switch scan of switch.py, so one leaf is double-classified
as number and as boolean/switch. -/
theorem boolean_leaf_double_classified :
    box_number_scan enableConfig = [("NightBoost", "General", "Enable")] ∧
    box_switch_scan enableConfig = [("NightBoost", "General", "Enable")] ∧
    box_select_scan enableConfig = [] := by
  refine ⟨?_, ?_, ?_⟩ <;> with_unfolding_all rfl

/-- C2: the claimed boolean/select precedence fails on the code.  A
boolean-shaped leaf at the enum-label registered path
`('HeatRecovery', 'Bypass', 'Mode')` is emitted by the switch scan (and
by the number scan) in addition to the select scan: no pass consults the
enum-label table to suppress the boolean classification. -/
theorem enum_boolean_leaf_also_switch :
    box_switch_scan bypassBooleanConfig = [("HeatRecovery", "Bypass", "Mode")] ∧
    box_select_scan bypassBooleanConfig = [("HeatRecovery", "Bypass", "Mode")] ∧
    box_number_scan bypassBooleanConfig = [("HeatRecovery", "Bypass", "Mode")] := by
  refine ⟨?_, ?_, ?_⟩ <;> with_unfolding_all rfl

/-- C3 counterexample: a fixed leaf `{'Val': 1, 'Min': 1, 'Max': 1,
'Inc': 1}` is classified after all — the node-level number scan emits it
as a number candidate, and the box-level select scan emits it when it
sits at a registered enum path. -/
theorem fixed_leaf_still_classified :
    node_number_scan fixedLeafNode =
      some [{ key := "FlowMax", minVal := 1, maxVal := 1, step := 1 }] ∧
    box_select_scan fixedModeConfig = [("HeatRecovery", "Bypass", "Mode")] := by
  refine ⟨?_, ?_⟩ <;> with_unfolding_all rfl

/-- C3 amended: a `{'Val','Min','Max','Inc'}` leaf with `Min == Max` is
classified neither as a number nor as a boolean/switch candidate by the
box-level scans; but at node level every such leaf — the fixed ones
included — becomes a number candidate, and the box-level select scan
classifies a registered enum path by presence alone, ignoring the
`Min`/`Max` bounds. -/
theorem fixed_leaf_classification_amended :
    (∀ cfg m s k leaf, configWFB cfg = true →
        config_leaf_at cfg m s k = some leaf →
        pyEq (pyItem leaf "Min") (pyItem leaf "Max") = true →
        (m, s, k) ∉ box_number_scan cfg ∧ (m, s, k) ∉ box_switch_scan cfg) ∧
    (∀ node k v, (k, v) ∈ node → _is_number_param v = true →
        ∀ l, node_number_scan node = some l → ∃ c ∈ l, c.key = k) ∧
    (∀ (cfg : JVal) (p : String × String × String), p ∈ box_select_scan cfg ↔
        (∃ pairs, (p, pairs) ∈ _CONFIG_SELECT_PARAMS) ∧
        safe_get cfg [p.1, p.2.1, p.2.2] ≠ JVal.null) := by
  refine ⟨?_, ?_, fun cfg p => mem_box_select_scan⟩
  · intro cfg m s k leaf hwf hleaf hfx
    constructor
    · intro hmem
      obtain ⟨ms, subs, leaves, leaf', hcfg, h1, h2, h3, hskip, hnum, hneq,
        hskipk⟩ := mem_box_number_scan hmem
      subst hcfg
      have heq : leaf' = leaf := config_levels_unique hwf hleaf h1 h2 h3
      subst heq
      rw [hfx] at hneq
      cases hneq
    · intro hmem
      obtain ⟨ms, subs, leaves, leaf', hcfg, h1, h2, h3, hskip, hbool,
        hskipk⟩ := mem_box_switch_scan hmem
      subst hcfg
      have heq : leaf' = leaf := config_levels_unique hwf hleaf h1 h2 h3
      subst heq
      rw [_is_boolean_param, Bool.and_eq_true, Bool.and_eq_true] at hbool
      exact pyEq_zero_one_absurd hbool.1.2 hbool.2 hfx
  · intro node k v hmem hnum l hs
    have hkeys := node_number_scan_keys hs
    have hmm : k ∈ (node.filter (fun kv => _is_number_param kv.2)).map Prod.fst :=
      List.mem_map_of_mem Prod.fst (List.mem_filter.mpr ⟨hmem, hnum⟩)
    rw [← hkeys] at hmm
    obtain ⟨c, hc, hck⟩ := List.mem_map.mp hmm
    exact ⟨c, hc, hck⟩

/-- C3 amended witness: at the concrete fixed leaf, the box number and
switch scans emit nothing, the node-level scan emits the leaf, and the
select scan emits the registered path. -/
theorem fixed_leaf_classification_amended_witness :
    configWFB fixedModeConfig = true ∧
    config_leaf_at fixedModeConfig "HeatRecovery" "Bypass" "Mode" =
      some fixedLeaf ∧
    pyEq (pyItem fixedLeaf "Min") (pyItem fixedLeaf "Max") = true ∧
    ("HeatRecovery", "Bypass", "Mode") ∉ box_number_scan fixedModeConfig ∧
    ("HeatRecovery", "Bypass", "Mode") ∉ box_switch_scan fixedModeConfig ∧
    (∃ c ∈ [({ key := "FlowMax", minVal := 1, maxVal := 1, step := 1 } :
        NodeNumberCand)], c.key = "FlowMax") ∧
    (("HeatRecovery", "Bypass", "Mode") ∈ box_select_scan fixedModeConfig ↔
      (∃ pairs, (("HeatRecovery", "Bypass", "Mode"), pairs) ∈
        _CONFIG_SELECT_PARAMS) ∧
      safe_get fixedModeConfig ["HeatRecovery", "Bypass", "Mode"] ≠
        JVal.null) := by
  obtain ⟨hbox, hnode, hsel⟩ := fixed_leaf_classification_amended
  have hwf : configWFB fixedModeConfig = true := by with_unfolding_all rfl
  have hleaf : config_leaf_at fixedModeConfig "HeatRecovery" "Bypass" "Mode" =
      some fixedLeaf := by with_unfolding_all rfl
  have hfx : pyEq (pyItem fixedLeaf "Min") (pyItem fixedLeaf "Max") = true := by
    with_unfolding_all rfl
  have hmain := hbox fixedModeConfig "HeatRecovery" "Bypass" "Mode" fixedLeaf
    hwf hleaf hfx
  refine ⟨hwf, hleaf, hfx, hmain.1, hmain.2, ?_, hsel fixedModeConfig _⟩
  exact hnode fixedLeafNode "FlowMax" fixedLeaf (by simp [fixedLeafNode])
    (by with_unfolding_all rfl) _ (by with_unfolding_all rfl)

/-- C4: for a surviving `(module, key)` pair of a node document, discovery
emits exactly one descriptor whose identity string is `module ++ "_" ++
key`; its existence path is `(module, key)`, and its metadata is the
registry entry's when `(module, key)` is registered and the humanized
defaults (no unit, no device class, statistics class "measurement")
otherwise. -/
theorem discover_unique_descriptor (node : List (String × JVal))
    (m k : String) (hwf : innerNodupB node = true)
    (hs : node_surviving node m k = true) :
    (discover_node_sensors node).filter (fun d => d.key == m ++ "_" ++ k) =
      [make_node_desc m k] ∧
    (make_node_desc m k).key = m ++ "_" ++ k ∧
    (make_node_desc m k).path_module = m ∧
    (make_node_desc m k).path_key = k ∧
    meta_spec m k (make_node_desc m k) := by
  refine ⟨?_, make_node_desc_key m k, (make_node_desc_path m k).1,
    (make_node_desc_path m k).2, make_node_desc_meta m k⟩
  rw [node_surviving, Bool.and_eq_true] at hs
  obtain ⟨hmod, hrest⟩ := hs
  have hm : m ∈ modules_to_scan := by simpa using hmod
  split at hrest
  · rename_i fields hget
    split at hrest
    · rename_i v hkv
      rw [innerNodupB, List.all_eq_true] at hwf
      have hndf := hwf (m, JVal.obj fields) (alist_get_mem hget)
      simp only at hndf
      have hndf' : (fields.map Prod.fst).Nodup := nodupKeysB_iff.mp hndf
      have happ : discover_node_sensors node =
          discover_module node "Sensor" ++ (discover_module node "Ventilation" ++
            (discover_module node "NetworkDuco" ++
              (discover_module node "General" ++ []))) := rfl
      rw [happ, List.filter_append, List.filter_append, List.filter_append,
        List.filter_append]
      have hself := discover_module_self_filter hget hndf' hkv hrest
      fin_cases hm
      · rw [hself,
          @discover_module_key_ne_filter node "Ventilation" "Sensor" k
            (by decide) (by decide) (by decide),
          @discover_module_key_ne_filter node "NetworkDuco" "Sensor" k
            (by decide) (by decide) (by decide),
          @discover_module_key_ne_filter node "General" "Sensor" k
            (by decide) (by decide) (by decide)]
        simp
      · rw [hself,
          @discover_module_key_ne_filter node "Sensor" "Ventilation" k
            (by decide) (by decide) (by decide),
          @discover_module_key_ne_filter node "NetworkDuco" "Ventilation" k
            (by decide) (by decide) (by decide),
          @discover_module_key_ne_filter node "General" "Ventilation" k
            (by decide) (by decide) (by decide)]
        simp
      · rw [hself,
          @discover_module_key_ne_filter node "Sensor" "NetworkDuco" k
            (by decide) (by decide) (by decide),
          @discover_module_key_ne_filter node "Ventilation" "NetworkDuco" k
            (by decide) (by decide) (by decide),
          @discover_module_key_ne_filter node "General" "NetworkDuco" k
            (by decide) (by decide) (by decide)]
        simp
      · rw [hself,
          @discover_module_key_ne_filter node "Sensor" "General" k
            (by decide) (by decide) (by decide),
          @discover_module_key_ne_filter node "Ventilation" "General" k
            (by decide) (by decide) (by decide),
          @discover_module_key_ne_filter node "NetworkDuco" "General" k
            (by decide) (by decide) (by decide)]
        simp
    · cases hrest
  · cases hrest

/-- C4 witness: on a concrete node dict, the unknown key
`('Sensor', 'NewSensor')` survives and yields exactly one descriptor with
identity `Sensor_NewSensor` and the fallback metadata. -/
theorem discover_unique_descriptor_witness :
    innerNodupB discoveryNode = true ∧
    node_surviving discoveryNode "Sensor" "NewSensor" = true ∧
    ((discover_node_sensors discoveryNode).filter
        (fun d => d.key == "Sensor" ++ "_" ++ "NewSensor") =
      [make_node_desc "Sensor" "NewSensor"] ∧
    (make_node_desc "Sensor" "NewSensor").key =
      "Sensor" ++ "_" ++ "NewSensor" ∧
    (make_node_desc "Sensor" "NewSensor").path_module = "Sensor" ∧
    (make_node_desc "Sensor" "NewSensor").path_key = "NewSensor" ∧
    meta_spec "Sensor" "NewSensor" (make_node_desc "Sensor" "NewSensor")) :=
  ⟨by with_unfolding_all rfl, by with_unfolding_all rfl,
   discover_unique_descriptor discoveryNode "Sensor" "NewSensor"
     (by with_unfolding_all rfl) (by with_unfolding_all rfl)⟩

/-- C5: the key-humanization function returns the four values the spec
fixes: spaces are inserted at lower-upper boundaries and between a run of
uppercase letters and a following uppercase-lowercase pair, and all-caps
tokens are unchanged. -/
theorem humanize_fixed_examples :
    _humanize_key "FlowLvlTgt" = "Flow Lvl Tgt" ∧
    _humanize_key "RSSIWifi" = "RSSI Wifi" ∧
    _humanize_key "RF" = "RF" ∧
    _humanize_key "Temp" = "Temp" := by
  refine ⟨?_, ?_, ?_, ?_⟩ <;> with_unfolding_all rfl

/-- C6: discovery is idempotent — two runs of `discover_node_sensors` on
the same unchanged node dict produce the same sequence of identity
strings, and the value-extraction functions of corresponding descriptors
return the same values on that node.  (Discovery is a pure function of
the node document, so determinism is inherent in the embedding.) -/
theorem discover_idempotent (node : List (String × JVal)) :
    (discover_node_sensors node).map (fun d => d.key) =
      (discover_node_sensors node).map (fun d => d.key) ∧
    (discover_node_sensors node).map (fun d => d.value_fn node) =
      (discover_node_sensors node).map (fun d => d.value_fn node) :=
  ⟨rfl, rfl⟩

/-- C7: `safe_get` is total (it never raises), the empty path returns the
document itself, and every non-`None` result is reached by walking the
path through nested mappings — whenever an intermediate value is absent
or not a mapping, or the full path is not found, the result is `None`. -/
theorem safe_get_spec (d : JVal) (path : List String) :
    safe_get d [] = d ∧
    (Resolves d path (safe_get d path) ∨ safe_get d path = JVal.null) := by
  refine ⟨safe_get_nil d, ?_⟩
  induction path generalizing d with
  | nil =>
      left
      rw [safe_get_nil]
      exact Resolves.nil d
  | cons k rest ih =>
      cases d with
      | obj fields =>
          cases hget : alist_get fields k with
          | none =>
              right
              rw [safe_get, hget]
          | some v =>
              rcases ih v with hr | hn
              · left
                rw [safe_get, hget]
                exact Resolves.step hget hr
              · right
                rw [safe_get, hget]
                exact hn
      | null => exact Or.inr rfl
      | bool b => exact Or.inr rfl
      | num q => exact Or.inr rfl
      | str s => exact Or.inr rfl
      | arr l => exact Or.inr rfl

/-- C8: on a document holding the leaf `{'Val': 108}` at
`info.Ventilation.Sensor.TempOda`, the box-level `TempOda` descriptor's
value-extraction function yields 10.8 — the temperature converter
divides the raw value by 10. -/
theorem tempOda_scenario :
    (SENSORS.filter (fun s => s.key == "TempOda")).map
      (fun s => s.value_fn tempOdaDoc) = [some (JVal.num 10.8)] := by
  with_unfolding_all rfl

/-- C9: node-level classification depends on the leaf's shape alone — a
leaf of a `config_nodes` node becomes a number candidate exactly when it
carries all four of `Val`, `Min`, `Max`, `Inc`; no skip set, no
`Min == Max` exclusion and no enum-label table is consulted at node
level. -/
theorem node_number_shape_only (node : List (String × JVal))
    (hnd : nodupKeysB node = true) (k : String) (v : JVal)
    (hmem : (k, v) ∈ node) (l : List NodeNumberCand)
    (hs : node_number_scan node = some l) :
    (∃ c ∈ l, c.key = k) ↔ _is_number_param v = true := by
  have hkeys := node_number_scan_keys hs
  have hnd' : (node.map Prod.fst).Nodup := nodupKeysB_iff.mp hnd
  constructor
  · rintro ⟨c, hc, rfl⟩
    have hmm : c.key ∈ l.map (fun c => c.key) :=
      List.mem_map_of_mem _ hc
    rw [hkeys] at hmm
    obtain ⟨⟨k', v'⟩, hkv', hk'⟩ := List.mem_map.mp hmm
    obtain ⟨hmm', hnum'⟩ := List.mem_filter.mp hkv'
    simp only at hk'
    subst hk'
    have hv : v = v' := mem_key_unique hnd' hmem hmm'
    rw [hv]
    exact hnum'
  · intro hv
    have hmm : k ∈ (node.filter (fun kv => _is_number_param kv.2)).map Prod.fst :=
      List.mem_map_of_mem Prod.fst (List.mem_filter.mpr ⟨hmem, hv⟩)
    rw [← hkeys] at hmm
    obtain ⟨c, hc, hck⟩ := List.mem_map.mp hmm
    exact ⟨c, hc, hck⟩

/-- C9 witness: on a concrete `config_nodes` node, the `Co2SetPoint` leaf
(the only one carrying all four keys) is a number candidate, exactly as
the shape test predicts. -/
theorem node_number_shape_only_witness :
    nodupKeysB co2Node = true ∧
    ("Co2SetPoint",
      JVal.obj [("Val", JVal.num 1400), ("Min", JVal.num 0),
        ("Max", JVal.num 2000), ("Inc", JVal.num 10)]) ∈ co2Node ∧
    node_number_scan co2Node =
      some [{ key := "Co2SetPoint", minVal := 0, maxVal := 2000, step := 10 }] ∧
    ((∃ c ∈ [({ key := "Co2SetPoint", minVal := 0, maxVal := 2000, step := 10 } : NodeNumberCand)],
        c.key = "Co2SetPoint") ↔
      _is_number_param (JVal.obj [("Val", JVal.num 1400), ("Min", JVal.num 0),
        ("Max", JVal.num 2000), ("Inc", JVal.num 10)]) = true) :=
  ⟨by with_unfolding_all rfl, by simp [co2Node], by with_unfolding_all rfl,
   node_number_shape_only co2Node (by with_unfolding_all rfl) _ _
     (by simp [co2Node]) _ (by with_unfolding_all rfl)⟩

/-- C10: when the document has no MAC address (`safe_get` on
`info.General.Lan.Mac.Val` is `None`), the sensor, number and switch
setup passes all return early with zero entities, whatever else the
document contains. -/
theorem missing_mac_no_entities (doc : JVal) (h : mac_of doc = JVal.null) :
    sensor_setup doc = some [] ∧ number_setup doc = some [] ∧
    switch_setup doc = [] := by
  have hg : mac_guard doc = true := by
    simp [mac_guard, h, pyTruthy, pyEq]
  exact ⟨by rw [sensor_setup, if_pos hg], by rw [number_setup, if_pos hg],
    by rw [switch_setup, if_pos hg]⟩

/-- C10 witness: a concrete document with config, config_nodes and nodes
sections but no MAC produces zero entities in all three passes. -/
theorem missing_mac_no_entities_witness :
    mac_of noMacDoc = JVal.null ∧
    (sensor_setup noMacDoc = some [] ∧ number_setup noMacDoc = some [] ∧
      switch_setup noMacDoc = []) :=
  ⟨by with_unfolding_all rfl,
   missing_mac_no_entities noMacDoc (by with_unfolding_all rfl)⟩

end Ducobox
